import Mathlib

/-!
Verification of the FeO chat-driven audio controller.

This file shallowly embeds the two core modules of the repository:

* `src/commands.rs` — the tokenizer token type and the table-driven grammar
  matcher `Parser::match_tokens` over `AudioCommands::EXPECTED_TOKENS`;
* `src/audio/player.rs` — the queue/session engine of `AudioPlayer`
  (`play_only_track`, `process_goto`, `process_rm`, `process_driveby`,
  `clear_queue`, the locking wrappers, `cancel_timeout`, `shutdown`) and the
  idle supervisor (`TrackEndCallback::act`, including the body of the spawned
  timeout task).

External collaborators (the Discord chat transport, the songbird voice
transport, and yt-dlp media resolution) are modeled as parameters or as
succeeding primitives that log an `Effect`; the queue itself, all index
arithmetic, all control flow, and every early-return error path are
translated directly from the source.  A Rust `unwrap()` on a value that can
be absent is modeled as the distinguished `Outcome.panic` result.
-/

/-- Decidable equality for `Except`, so that matcher results can be
evaluated on concrete inputs. -/
instance exceptDecEq {ε α : Type} [DecidableEq ε] [DecidableEq α] : DecidableEq (Except ε α) :=
  fun x y =>
    match x, y with
    | Except.ok a, Except.ok b =>
        if h : a = b then isTrue (by rw [h]) else isFalse (by intro hh; cases hh; exact h rfl)
    | Except.error a, Except.error b =>
        if h : a = b then isTrue (by rw [h]) else isFalse (by intro hh; cases hh; exact h rfl)
    | Except.ok _, Except.error _ => isFalse (by intro h; cases h)
    | Except.error _, Except.ok _ => isFalse (by intro h; cases h)

/-- The token type produced by the logos lexer in `src/commands.rs`.
Keywords map to their own tags; any other non-whitespace run becomes
`generic`.  `argument` and `arguments` are pattern-only placeholder tags and
never appear in lexer output. -/
inductive Token where
  | help
  | leave
  | stop
  | pause
  | resume
  | skip
  | list
  | clear
  | play
  | driveby
  | queue
  | search
  | next
  | rm
  | goto
  | generic (s : String)
  | lexError
  | argument
  | arguments
deriving DecidableEq, Repr

/-- Whether a token is the `Generic(_)` variant (the Rust code tests this
with `if let Token::Generic(_)`). -/
def Token.isGeneric : Token → Bool
  | Token.generic _ => true
  | _ => false

/-- The fixed command table `AudioCommands::EXPECTED_TOKENS` from
`src/commands.rs`, in source order. -/
def AudioCommands.EXPECTED_TOKENS : List (List Token) :=
  [ [Token.help],
    [Token.list],
    [Token.pause],
    [Token.resume],
    [Token.skip],
    [Token.clear],
    [Token.stop],
    [Token.leave],
    [Token.play, Token.argument],
    [Token.play, Token.search, Token.arguments],
    [Token.driveby, Token.argument],
    [Token.driveby, Token.search, Token.argument],
    [Token.queue, Token.arguments],
    [Token.next, Token.arguments],
    [Token.goto, Token.argument],
    [Token.rm, Token.arguments] ]

/-- Result of checking one candidate pattern against the token stream,
mirroring the three exits of the inner loop of `Parser::match_tokens`:
the pattern was fully consumed and the stream exhausted (`matched`), the
pattern was fully consumed with tokens left over (`extra`, the
`return Err(...)` at the end of the loop body), or a mismatch / exhausted
stream caused `continue 'outer` (`noMatch`). -/
inductive PatResult where
  | matched
  | noMatch
  | extra
deriving DecidableEq, Repr

/-- One pass of the inner loop of `Parser::match_tokens` for a single
candidate pattern.  `Arguments` demands a non-empty all-generic remainder
and then exhausts the stream; `Argument` consumes exactly one generic
token; any other expected tag must equal the input token; running out of
input tokens mid-pattern is a `noMatch` (`continue 'outer`); leftover input
after the pattern is consumed is `extra`. -/
def matchPattern : List Token → List Token → PatResult
  | [], ts => if ts.isEmpty then PatResult.matched else PatResult.extra
  | p :: ps, ts =>
      if p = Token.arguments then
        (if ts.isEmpty then PatResult.noMatch
         else if ts.all Token.isGeneric then PatResult.matched else PatResult.noMatch)
      else
        match ts with
        | t :: ts =>
            if t.isGeneric then
              (if p = Token.argument then matchPattern ps ts else PatResult.noMatch)
            else if t = p then matchPattern ps ts
            else PatResult.noMatch
        | [] => PatResult.noMatch

/-- `command_tokens` in `Parser::match_tokens`: the input tokens with every
generic removed (`retain`). -/
def commandTokens (ts : List Token) : List Token :=
  ts.filter (fun t => ! Token.isGeneric t)

/-- `args` computed in `tokenize`: the generic tokens of the input in input
order (`filter`). -/
def genericArgs (ts : List Token) : List Token :=
  ts.filter Token.isGeneric

/-- The error string returned when a fully matched pattern leaves trailing
tokens. -/
def extraArgsMsg : String :=
  "Matched a valid command, but we still have parsed tokens, making it bad"

/-- The error string returned when no pattern in the table matches. -/
def noValidMsg : String :=
  "No valid token chain has been found"

/-- The `'outer` loop of `Parser::match_tokens`: try each pattern in table
order; `matched` returns the command tokens and captured generics, `extra`
returns the extra-arguments error immediately, `noMatch` falls through to
the next pattern; an exhausted table is the no-valid-command error. -/
def matchTokensAux : List (List Token) → List Token → Except String (List Token × List Token)
  | [], _ => Except.error noValidMsg
  | p :: ps, ts =>
      match matchPattern p ts with
      | PatResult.matched => Except.ok (commandTokens ts, genericArgs ts)
      | PatResult.extra => Except.error extraArgsMsg
      | PatResult.noMatch => matchTokensAux ps ts

/-- `Parser::match_tokens` applied to an already-tokenized message (the
tokenizer itself only errors on empty input, before matching starts). -/
def Parser.match_tokens (ts : List Token) : Except String (List Token × List Token) :=
  matchTokensAux AudioCommands.EXPECTED_TOKENS ts

/-- Builds the token sequence that instantiates a command pattern with the
given argument strings: each `Argument` slot takes exactly one string, a
trailing `Arguments` slot takes all remaining strings and requires at least
one, and every keyword slot stands for itself.  `none` when the argument
count does not fit the pattern. -/
def fill : List Token → List String → Option (List Token)
  | [], [] => some []
  | [], _ :: _ => none
  | p :: ps, as =>
      if p = Token.argument then
        match as with
        | a :: rest => (fill ps rest).map (fun ts => Token.generic a :: ts)
        | [] => none
      else if p = Token.arguments then
        (if as.isEmpty then none else some (as.map Token.generic))
      else
        (fill ps as).map (fun ts => p :: ts)

/-- The keyword tags of a pattern, with the `Argument`/`Arguments` slots
stripped: what `command_tokens` yields for an exact instantiation of the
pattern, and what `Parser::process` dispatches on. -/
def keywordPart : List Token → List Token
  | [] => []
  | p :: ps =>
      if p = Token.argument then keywordPart ps
      else if p = Token.arguments then keywordPart ps
      else p :: keywordPart ps

/-- Mapping a list of strings to generic tokens yields only generics. -/
theorem comp_isGeneric_generic : Token.isGeneric ∘ Token.generic = fun _ => true := rfl

/-- C6: for every pattern in the fixed command table, a token sequence
exactly matching that pattern (argument slots filled by generic tokens built
from arbitrary strings) resolves through `Parser::match_tokens` — the first
matching pattern in table order — to that command, i.e. to the pattern
keyword tags with the captured generic argument strings returned in input
order. -/
theorem c6_pattern_instantiation_resolves (p : List Token)
    (hp : p ∈ AudioCommands.EXPECTED_TOKENS)
    (args : List String) (ts : List Token) (hfill : fill p args = some ts) :
    Parser.match_tokens ts = Except.ok (keywordPart p, args.map Token.generic) := by
  fin_cases hp
  · rcases args with _ | ⟨a, as⟩
    · simp [fill] at hfill; subst hfill; decide
    · simp [fill] at hfill
  · rcases args with _ | ⟨a, as⟩
    · simp [fill] at hfill; subst hfill; decide
    · simp [fill] at hfill
  · rcases args with _ | ⟨a, as⟩
    · simp [fill] at hfill; subst hfill; decide
    · simp [fill] at hfill
  · rcases args with _ | ⟨a, as⟩
    · simp [fill] at hfill; subst hfill; decide
    · simp [fill] at hfill
  · rcases args with _ | ⟨a, as⟩
    · simp [fill] at hfill; subst hfill; decide
    · simp [fill] at hfill
  · rcases args with _ | ⟨a, as⟩
    · simp [fill] at hfill; subst hfill; decide
    · simp [fill] at hfill
  · rcases args with _ | ⟨a, as⟩
    · simp [fill] at hfill; subst hfill; decide
    · simp [fill] at hfill
  · rcases args with _ | ⟨a, as⟩
    · simp [fill] at hfill; subst hfill; decide
    · simp [fill] at hfill
  · rcases args with _ | ⟨a, _ | ⟨b, as⟩⟩
    · simp [fill] at hfill
    · simp [fill] at hfill
      subst hfill
      simp [Parser.match_tokens, AudioCommands.EXPECTED_TOKENS, matchTokensAux, matchPattern,
        Token.isGeneric, commandTokens, genericArgs, keywordPart]
    · simp [fill] at hfill
  · rcases args with _ | ⟨a, as⟩
    · simp [fill] at hfill
    · simp [fill] at hfill
      subst hfill
      simp [Parser.match_tokens, AudioCommands.EXPECTED_TOKENS, matchTokensAux, matchPattern,
        Token.isGeneric, commandTokens, genericArgs, keywordPart, List.all_map, List.filter_map,
        comp_isGeneric_generic]
  · rcases args with _ | ⟨a, _ | ⟨b, as⟩⟩
    · simp [fill] at hfill
    · simp [fill] at hfill
      subst hfill
      simp [Parser.match_tokens, AudioCommands.EXPECTED_TOKENS, matchTokensAux, matchPattern,
        Token.isGeneric, commandTokens, genericArgs, keywordPart]
    · simp [fill] at hfill
  · rcases args with _ | ⟨a, _ | ⟨b, as⟩⟩
    · simp [fill] at hfill
    · simp [fill] at hfill
      subst hfill
      simp [Parser.match_tokens, AudioCommands.EXPECTED_TOKENS, matchTokensAux, matchPattern,
        Token.isGeneric, commandTokens, genericArgs, keywordPart]
    · simp [fill] at hfill
  · rcases args with _ | ⟨a, as⟩
    · simp [fill] at hfill
    · simp [fill] at hfill
      subst hfill
      simp [Parser.match_tokens, AudioCommands.EXPECTED_TOKENS, matchTokensAux, matchPattern,
        Token.isGeneric, commandTokens, genericArgs, keywordPart, List.all_map, List.filter_map,
        comp_isGeneric_generic]
  · rcases args with _ | ⟨a, as⟩
    · simp [fill] at hfill
    · simp [fill] at hfill
      subst hfill
      simp [Parser.match_tokens, AudioCommands.EXPECTED_TOKENS, matchTokensAux, matchPattern,
        Token.isGeneric, commandTokens, genericArgs, keywordPart, List.all_map, List.filter_map,
        comp_isGeneric_generic]
  · rcases args with _ | ⟨a, _ | ⟨b, as⟩⟩
    · simp [fill] at hfill
    · simp [fill] at hfill
      subst hfill
      simp [Parser.match_tokens, AudioCommands.EXPECTED_TOKENS, matchTokensAux, matchPattern,
        Token.isGeneric, commandTokens, genericArgs, keywordPart]
    · simp [fill] at hfill
  · rcases args with _ | ⟨a, as⟩
    · simp [fill] at hfill
    · simp [fill] at hfill
      subst hfill
      simp [Parser.match_tokens, AudioCommands.EXPECTED_TOKENS, matchTokensAux, matchPattern,
        Token.isGeneric, commandTokens, genericArgs, keywordPart, List.all_map, List.filter_map,
        comp_isGeneric_generic]

/-- Witness for C6 at the `play <url>` pattern with the single argument
string `https://x`. -/
theorem c6_pattern_instantiation_resolves_witness :
    [Token.play, Token.argument] ∈ AudioCommands.EXPECTED_TOKENS
  ∧ fill [Token.play, Token.argument] ["https://x"]
      = some [Token.play, Token.generic ("https://x")]
  ∧ Parser.match_tokens [Token.play, Token.generic ("https://x")]
      = Except.ok (keywordPart [Token.play, Token.argument],
          (["https://x"] : List String).map Token.generic) :=
  ⟨by decide, by decide,
   c6_pattern_instantiation_resolves [Token.play, Token.argument] (by decide)
     ["https://x"] [Token.play, Token.generic ("https://x")] (by decide)⟩

/-- C7: a pattern whose tag sequence matches position-by-position but with
trailing tokens left over yields the per-pattern `extra` outcome (conjunct
1, for patterns without a trailing `Arguments` slot); once reached in table
order that outcome makes the matcher return the distinct extra-arguments
error (conjunct 2); that error differs from the no-valid-command error
(conjunct 3); and a candidate whose check ends in `noMatch` — in particular
a token stream that is a proper prefix of the pattern, i.e. the stream runs
out mid-pattern — makes matching continue with the next candidate instead
of failing globally (conjunct 4). -/
theorem c7_extra_arguments_distinct :
    (∀ p ts u us, Token.arguments ∉ p → matchPattern p ts = PatResult.matched →
        matchPattern p (ts ++ u :: us) = PatResult.extra)
  ∧ (∀ qs p rest ts, (∀ q ∈ qs, matchPattern q ts = PatResult.noMatch) →
        matchPattern p ts = PatResult.extra →
        matchTokensAux (qs ++ p :: rest) ts = Except.error extraArgsMsg)
  ∧ extraArgsMsg ≠ noValidMsg
  ∧ (∀ q rest ts, matchPattern q ts = PatResult.noMatch →
        matchTokensAux (q :: rest) ts = matchTokensAux rest ts) := by
  have h1 : ∀ p ts u us, Token.arguments ∉ p → matchPattern p ts = PatResult.matched →
      matchPattern p (ts ++ u :: us) = PatResult.extra := by
    intro p
    induction p with
    | nil =>
        intro ts u us _ hm
        cases ts with
        | nil => simp [matchPattern]
        | cons t ts => simp [matchPattern] at hm
    | cons q ps ih =>
        intro ts u us hnot hm
        have hq : q ≠ Token.arguments := fun h => hnot (by simp [h])
        have hps : Token.arguments ∉ ps := fun h => hnot (by simp [h])
        cases ts with
        | nil => simp [matchPattern, hq] at hm
        | cons t ts =>
            by_cases hg : t.isGeneric = true
            · by_cases ha : q = Token.argument
              · simp [matchPattern, hq, hg, ha] at hm ⊢
                exact ih ts u us hps hm
              · simp [matchPattern, hq, hg, ha] at hm
            · by_cases he : t = q
              · subst he
                simp [matchPattern, hq, hg] at hm ⊢
                exact ih ts u us hps hm
              · simp [matchPattern, hq, hg, he] at hm
  have h2 : ∀ qs p rest ts, (∀ q ∈ qs, matchPattern q ts = PatResult.noMatch) →
      matchPattern p ts = PatResult.extra →
      matchTokensAux (qs ++ p :: rest) ts = Except.error extraArgsMsg := by
    intro qs
    induction qs with
    | nil =>
        intro p rest ts _ hp
        simp [matchTokensAux, hp]
    | cons q qs ih =>
        intro p rest ts hall hp
        have hq := hall q (List.mem_cons_self _ _)
        simp only [List.cons_append, matchTokensAux, hq]
        exact ih p rest ts (fun r hr => hall r (List.mem_cons_of_mem _ hr)) hp
  have h4 : ∀ q rest ts, matchPattern q ts = PatResult.noMatch →
      matchTokensAux (q :: rest) ts = matchTokensAux rest ts := by
    intro q rest ts hq
    simp [matchTokensAux, hq]
  exact ⟨h1, h2, by decide, h4⟩

/-- Witness for C7: `pause x` fully matches the `[Pause]` pattern with a
leftover generic token, so the matcher reports the extra-arguments error,
which differs from the no-valid-command error. -/
theorem c7_extra_arguments_distinct_witness :
    Parser.match_tokens [Token.pause, Token.generic ("x")] = Except.error extraArgsMsg
  ∧ extraArgsMsg ≠ noValidMsg :=
  ⟨c7_extra_arguments_distinct.2.1 [[Token.help], [Token.list]] [Token.pause]
      [[Token.resume], [Token.skip], [Token.clear], [Token.stop], [Token.leave],
       [Token.play, Token.argument], [Token.play, Token.search, Token.arguments],
       [Token.driveby, Token.argument], [Token.driveby, Token.search, Token.argument],
       [Token.queue, Token.arguments], [Token.next, Token.arguments],
       [Token.goto, Token.argument], [Token.rm, Token.arguments]]
      [Token.pause, Token.generic ("x")] (by decide) (by decide),
   c7_extra_arguments_distinct.2.2.1⟩

/-- C8 (code-bug evidence): the table row for `driveby search` is
`[Driveby, Search, Argument]` — a single-argument slot — so the failing
input `driveby search never gonna` (two search words) is rejected with the
extra-arguments error, while a single search word is accepted.  The in-code
help text documents `driveby search "song name"` as "same as play search"
and the handler joins all generic tokens into one search string, and the
`play search` row uses the one-or-more `Arguments` slot, so one-or-more
words is the documented intent. -/
theorem c8_driveby_search_single_argument :
    Parser.match_tokens
        [Token.driveby, Token.search, Token.generic ("never"), Token.generic ("gonna")]
      = Except.error extraArgsMsg
  ∧ Parser.match_tokens [Token.driveby, Token.search, Token.generic ("never")]
      = Except.ok ([Token.driveby, Token.search], [Token.generic ("never")]) :=
  ⟨by decide, by decide⟩

/-- `TrackEndAction` from `src/audio/player.rs`: the policy the
`TrackEndCallback` reads when the current track ends. -/
inductive TrackEndAction where
  | LEAVE
  | TIMEOUT
deriving DecidableEq, Repr

/-- The songbird `PlayMode` transport states relevant to the supervisor. -/
inductive PlayMode where
  | Play
  | Pause
  | Stop
  | End
deriving DecidableEq, Repr

/-- A queued track, identified by the `Uuid` that `process_rm` uses for
removal; the playable audio itself is an external capability. -/
structure Track where
  uuid : Nat
deriving DecidableEq, Repr

/-- The songbird `Call` as the player observes it: the ordered track queue
(index 0 is the live playback slot) plus whether a voice connection is
currently up (`current_connection()`). -/
structure Call where
  queue : List Track
  connected : Bool
deriving DecidableEq, Repr

/-- The `AudioPlayer` state: the optional call handle, the idle policy, and
the optional outstanding timeout task handle (identified by a numeric id).
The serenity cache/http handle and the text channel id are external
capabilities and carry no queue/session state. -/
structure AudioPlayer where
  call_handle_lock : Option Call
  idle_callback_action : TrackEndAction
  timeout_handle : Option Nat
deriving DecidableEq, Repr

/-- Result of one operation.  `panic` models a Rust `unwrap()` of an absent
value (the operation crashes instead of returning), `err` models
`Err(String)` returned to the command boundary. -/
inductive Outcome (α : Type) where
  | ok (a : α)
  | err (e : String)
  | panic
deriving DecidableEq, Repr

/-- Observable actions an operation performs against the external call /
timer capabilities, in program order. -/
inductive Effect where
  | pausedQueue
  | resumedQueue
  | stoppedQueue
  | skippedQueue
  | stoppedTrack (u : Nat)
  | abortedTimeout (h : Nat)
  | spawnedTimeout (h : Nat)
  | leftCall
deriving DecidableEq, Repr

/-- The `lock_call!` macro: `self.call_handle_lock.as_ref().unwrap().lock()`
— an `unwrap()` of the `Option`, so a missing call handle panics rather
than producing an error value. -/
def lock_call : Option Call → Outcome Call
  | none => Outcome.panic
  | some c => Outcome.ok c

/-- `AudioPlayer::cancel_timeout`: abort the outstanding timeout task
handle, if any, and drop it. -/
def cancel_timeout (st : AudioPlayer) : AudioPlayer × List Effect :=
  match st.timeout_handle with
  | some h => ({ st with timeout_handle := none }, [Effect.abortedTimeout h])
  | none => (st, [])

/-- `AudioPlayer::pause_locking` / `pause`: lock the call and pause the
queue.  Transport failures of the external primitive are modeled as
success; the claim-relevant behavior is the `unwrap()` on a missing call
handle. -/
def pause_locking (st : AudioPlayer) : Outcome Unit × AudioPlayer × List Effect :=
  match lock_call st.call_handle_lock with
  | Outcome.panic => (Outcome.panic, st, [])
  | Outcome.err e => (Outcome.err e, st, [])
  | Outcome.ok _ => (Outcome.ok (), st, [Effect.pausedQueue])

/-- `AudioPlayer::resume_locking` / `resume` (same modeling as `pause`). -/
def resume_locking (st : AudioPlayer) : Outcome Unit × AudioPlayer × List Effect :=
  match lock_call st.call_handle_lock with
  | Outcome.panic => (Outcome.panic, st, [])
  | Outcome.err e => (Outcome.err e, st, [])
  | Outcome.ok _ => (Outcome.ok (), st, [Effect.resumedQueue])

/-- `AudioPlayer::skip_locking` / `skip` (the queue advance itself happens
inside songbird's own track-end handling, outside this function). -/
def skip_locking (st : AudioPlayer) : Outcome Unit × AudioPlayer × List Effect :=
  match lock_call st.call_handle_lock with
  | Outcome.panic => (Outcome.panic, st, [])
  | Outcome.err e => (Outcome.err e, st, [])
  | Outcome.ok _ => (Outcome.ok (), st, [Effect.skippedQueue])

/-- `AudioPlayer::stop_locking` / `stop`: `call.queue().stop()` (songbird
stops the queued tracks; the handle itself stays). -/
def stop_locking (st : AudioPlayer) : Outcome Unit × AudioPlayer × List Effect :=
  match lock_call st.call_handle_lock with
  | Outcome.panic => (Outcome.panic, st, [])
  | Outcome.err e => (Outcome.err e, st, [])
  | Outcome.ok _ => (Outcome.ok (), st, [Effect.stoppedQueue])

/-- `AudioPlayer::clear_queue_locking` / `clear_queue`: error on an empty
queue, otherwise `drain(1..)` keeps exactly the element at position 0. -/
def clear_queue_locking (st : AudioPlayer) : Outcome Unit × AudioPlayer × List Effect :=
  match lock_call st.call_handle_lock with
  | Outcome.panic => (Outcome.panic, st, [])
  | Outcome.err e => (Outcome.err e, st, [])
  | Outcome.ok call =>
      if call.queue.isEmpty then
        (Outcome.err ("Queue is empty, cannot clear"), st, [])
      else
        (Outcome.ok (),
         { st with call_handle_lock := some { call with queue := call.queue.take 1 } }, [])

/-- `AudioPlayer::print_queue` (`list`): locks the call (`unwrap()` of the
handle), errors on an empty queue, otherwise renders and sends the track
list; the rendering and chat send are external I/O and elided. -/
def print_queue (st : AudioPlayer) : Outcome Unit × AudioPlayer × List Effect :=
  match lock_call st.call_handle_lock with
  | Outcome.panic => (Outcome.panic, st, [])
  | Outcome.err e => (Outcome.err e, st, [])
  | Outcome.ok call =>
      if call.queue.isEmpty then (Outcome.err ("Queue is empty"), st, [])
      else (Outcome.ok (), st, [])

/-- `AudioPlayer::hangup`: `unwrap()` the call handle, full-stop the queue,
and leave when a connection is up (a failed transport leave is modeled as
succeeding). -/
def hangup (st : AudioPlayer) : Outcome Unit × AudioPlayer × List Effect :=
  match st.call_handle_lock with
  | none => (Outcome.panic, st, [])
  | some call =>
      if call.connected then
        (Outcome.ok (),
         { st with call_handle_lock := some { call with connected := false } },
         [Effect.stoppedQueue, Effect.leftCall])
      else
        (Outcome.ok (), st, [Effect.stoppedQueue])

/-- `AudioPlayer::shutdown`: cancel the timeout, then hang up. -/
def shutdown (st : AudioPlayer) : Outcome Unit × AudioPlayer × List Effect :=
  let res := cancel_timeout st
  match hangup res.1 with
  | (r, st2, effs) => (r, st2, res.2 ++ effs)

/-- Decimal accumulator for `parse_u32`, one character at a time. -/
def parseNatAux : List Char → Nat → Option Nat
  | [], acc => some acc
  | c :: cs, acc => if c.isDigit then parseNatAux cs (acc * 10 + (c.toNat - 48)) else none

/-- Rust `str::parse::<u32>()` on a decimal string: a non-empty digit
string denoting a natural number below 2^32, `none` otherwise. -/
def parse_u32 (s : String) : Option Nat :=
  if s.data.isEmpty then none
  else
    match parseNatAux s.data 0 with
    | some n => if n < 4294967296 then some n else none
    | none => none

/-- The argument loop at the top of `AudioPlayer::process_rm`: every token
must be a generic holding a parseable `u32`; the first failure aborts. -/
def parse_indices : List Token → Except String (List Nat)
  | [] => Except.ok []
  | Token.generic s :: rest =>
      (match parse_u32 s with
       | some n =>
           (match parse_indices rest with
            | Except.ok ns => Except.ok (n :: ns)
            | Except.error e => Except.error e)
       | none => Except.error ("Could not parse index from argument"))
  | _ :: _ => Except.error ("Invalid token")

/-- `AudioPlayer::process_rm`: parse the 1-based indices, `unwrap()` the
call handle, reject an empty playlist, reject (before any mutation) any
index that is `0` or exceeds `len - 1`, then collect the `Uuid`s at the
doomed positions, stop those tracks, and retain everything else. -/
def process_rm (st : AudioPlayer) (args : List Token) : Outcome Unit × AudioPlayer × List Effect :=
  match parse_indices args with
  | Except.error e => (Outcome.err e, st, [])
  | Except.ok indices_to_rm =>
      match st.call_handle_lock with
      | none => (Outcome.panic, st, [])
      | some call =>
          let playlist_len := call.queue.length
          if playlist_len = 0 then (Outcome.err ("Empty playlist"), st, [])
          else
            match indices_to_rm.find? (fun i => decide (playlist_len - 1 < i) || decide (i < 1)) with
            | some _ => (Outcome.err ("Index is invalid"), st, [])
            | none =>
                let removalvec :=
                  (call.queue.enum.filter (fun pr => indices_to_rm.contains pr.1)).map
                    (fun pr => pr.2.uuid)
                let kept := call.queue.filter (fun t => ! removalvec.contains t.uuid)
                (Outcome.ok (),
                 { st with call_handle_lock := some { call with queue := kept } },
                 removalvec.map Effect.stoppedTrack)

/-- `AudioPlayer::process_goto`: parse the index from the first argument
(`unwrap()` on an empty argument list), reject `idx < 1`, `unwrap()` the
call handle, reject an empty playlist and `idx > len - 1`, then stop the
current track, pop-and-stop exactly `idx` tracks from the head, and
resume. -/
def process_goto (st : AudioPlayer) (args : List Token) : Outcome Unit × AudioPlayer × List Effect :=
  match args.head? with
  | none => (Outcome.panic, st, [])
  | some tok =>
      match tok with
      | Token.generic s =>
          (match parse_u32 s with
           | none => (Outcome.err ("Could not parse index from argument"), st, [])
           | some idx =>
               if idx < 1 then (Outcome.err ("Tried to go to less than 1"), st, [])
               else
                 match st.call_handle_lock with
                 | none => (Outcome.panic, st, [])
                 | some call =>
                     if call.queue.length = 0 then (Outcome.err ("Empty playlist"), st, [])
                     else if call.queue.length - 1 < idx then
                       (Outcome.err ("Index is invalid"), st, [])
                     else
                       let stopCurrent := match call.queue.head? with
                         | some t => [Effect.stoppedTrack t.uuid]
                         | none => []
                       (Outcome.ok (),
                        { st with
                            call_handle_lock := some { call with queue := call.queue.drop idx } },
                        stopCurrent
                          ++ (call.queue.take idx).map (fun t => Effect.stoppedTrack t.uuid)
                          ++ [Effect.resumedQueue]))
      | _ => (Outcome.err ("Invalid token given"), st, [])

/-- `AudioPlayer::play_only_track`: `unwrap()` the call handle and enqueue
the track; if the queue now holds more than one element, pause, cancel any
pending timeout, move the new track from the back of the queue to the
front, and resume; otherwise just resume. -/
def play_only_track (st : AudioPlayer) (track : Track) : Outcome Unit × AudioPlayer × List Effect :=
  match st.call_handle_lock with
  | none => (Outcome.panic, st, [])
  | some call =>
      let q1 := call.queue ++ [track]
      if 1 < q1.length then
        let res := cancel_timeout { st with call_handle_lock := some { call with queue := q1 } }
        let q2 := match q1.getLast? with
          | some last => last :: q1.dropLast
          | none => q1
        (Outcome.ok (),
         { res.1 with call_handle_lock := some { call with queue := q2 } },
         Effect.pausedQueue :: res.2 ++ [Effect.resumedQueue])
      else
        (Outcome.ok (),
         { st with call_handle_lock := some { call with queue := q1 } },
         [Effect.resumedQueue])

/-- `AudioPlayer::process_driveby`: at most one argument; `unwrap()` the
first argument (a non-generic first token falls through to `Ok(())`);
cancel any pending timeout; resolve the url (external — the parameter
`resolved` is the outcome of `make_ytdl_track`); join the most crowded
channel (external transport, modeled as succeeding without touching the
queue); set the idle policy to LEAVE; play the track via
`play_only_track`; finally clear the queue. -/
def process_driveby (st : AudioPlayer) (args : List Token) (resolved : Except String Track) :
    Outcome Unit × AudioPlayer × List Effect :=
  if 1 < args.length then (Outcome.err ("Too many arguments given to driveby"), st, [])
  else
    match args.head? with
    | none => (Outcome.panic, st, [])
    | some (Token.generic _url) =>
        let res := cancel_timeout st
        (match resolved with
         | Except.error _e => (Outcome.err ("Error making yt track"), res.1, res.2)
         | Except.ok track =>
             let st2 := { res.1 with idle_callback_action := TrackEndAction.LEAVE }
             match play_only_track st2 track with
             | (Outcome.ok _, st3, e2) =>
                 (match clear_queue_locking st3 with
                  | (r, st4, e3) =>
                      ((match r with | Outcome.ok _ => Outcome.ok () | other => other),
                       st4, res.2 ++ e2 ++ e3))
             | (r, st3, e2) => (r, st3, res.2 ++ e2))
    | some _ => (Outcome.ok (), st, [])

/-- The body of the timeout task spawned by `TrackEndCallback::act` under
the TIMEOUT policy, at the moment the sleep elapses: `unwrap()` the call
handle and read the queue; if the queue is non-empty, query the current
track's transport state (`get_info`, external — passed in as `info`): a
successful answer leads to no action whatsoever (the source only logs when
the state is `Play` and has no else-branch), while a failed query shuts the
player down; an empty queue shuts the player down.  `shutdown().unwrap()`
turns a shutdown error into a panic. -/
def timeout_task_body (st : AudioPlayer) (info : Except String PlayMode) :
    Outcome Unit × AudioPlayer × List Effect :=
  match st.call_handle_lock with
  | none => (Outcome.panic, st, [])
  | some call =>
      if call.queue.isEmpty then
        match shutdown st with
        | (Outcome.ok _, st2, effs) => (Outcome.ok (), st2, effs)
        | (_, st2, effs) => (Outcome.panic, st2, effs)
      else
        match call.queue.head? with
        | some _current =>
            (match info with
             | Except.ok s =>
                 if s = PlayMode.Play then
                   (Outcome.ok (), st, [])
                 else
                   (Outcome.ok (), st, [])
             | Except.error _e =>
                 match shutdown st with
                 | (Outcome.ok _, st2, effs) => (Outcome.ok (), st2, effs)
                 | (_, st2, effs) => (Outcome.panic, st2, effs))
        | none => (Outcome.ok (), st, [])

/-- The TIMEOUT arm of `TrackEndCallback::act` on a track-end event: abort
the existing timeout handle if there is one, then spawn a new timeout task
(identified by the fresh handle id) and store its handle. -/
def track_end_timeout_branch (st : AudioPlayer) (fresh : Nat) : AudioPlayer × List Effect :=
  let abortEffs := match st.timeout_handle with
    | some h => [Effect.abortedTimeout h]
    | none => []
  ({ st with timeout_handle := some fresh }, abortEffs ++ [Effect.spawnedTimeout fresh])

/-- The set of countdown tasks that are live (spawned and not aborted)
after a list of effects is performed, starting from a given live set: a
countdown can only fire while it is in this set. -/
def liveTimers : List Nat → List Effect → List Nat
  | live, [] => live
  | live, Effect.abortedTimeout h :: rest => liveTimers (live.filter (fun x => x ≠ h)) rest
  | live, Effect.spawnedTimeout h :: rest => liveTimers (live ++ [h]) rest
  | live, _ :: rest => liveTimers live rest

/-- The live countdowns tracked by a `timeout_handle` field. -/
def optTimers : Option Nat → List Nat
  | none => []
  | some h => [h]

/-- The queue of a player state (empty when no call handle exists). -/
def queueOf (st : AudioPlayer) : List Track :=
  match st.call_handle_lock with
  | some c => c.queue
  | none => []

/-- A player state whose session holds one track and whose current track is,
at countdown expiry, confirmed by the transport to be paused (a successful
`get_info` answer that is not `Play`). -/
def pausedAtExpiryState : AudioPlayer :=
  { call_handle_lock := some { queue := [{ uuid := 0 }], connected := true },
    idle_callback_action := TrackEndAction.TIMEOUT,
    timeout_handle := none }

/-- C1 counterexample: with a non-empty queue whose current track is
confirmed NOT playing (`get_info` succeeds with `Pause`), the claim says the
elapsed countdown triggers a full shutdown; the code does nothing at all —
the state is unchanged and no effect (in particular no leave) is
performed, because the `Ok` branch of the state query has no else-arm. -/
theorem c1_counterexample_confirmed_paused :
    timeout_task_body pausedAtExpiryState (Except.ok PlayMode.Pause)
      = (Outcome.ok (), pausedAtExpiryState, []) := by decide

/-- C1 (amended): when the TIMEOUT countdown elapses, the supervisor
triggers a full shutdown (the leave action is performed) if the queue is
empty or if querying the current track's transport state fails; if the
queue is non-empty and the state query succeeds — whether or not the
reported state is `Play` — it does nothing and the session state is
unchanged. -/
theorem c1_timeout_expiry_shutdown_conditions (st : AudioPlayer) (call : Call)
    (info : Except String PlayMode)
    (hc : st.call_handle_lock = some call) (hconn : call.connected = true) :
    ((call.queue = [] ∨ (∃ e, info = Except.error e)) →
        Effect.leftCall ∈ (timeout_task_body st info).2.2)
  ∧ (∀ s, info = Except.ok s → call.queue ≠ [] →
        timeout_task_body st info = (Outcome.ok (), st, [])) := by
  constructor
  · intro hcase
    have hsh2 : Effect.leftCall ∈ (shutdown st).2.2 := by
      rcases hth : st.timeout_handle with _ | h <;>
        simp [shutdown, cancel_timeout, hangup, hth, hc, hconn]
    have hbody : (timeout_task_body st info).2.2 = (shutdown st).2.2 := by
      rcases hcase with hempty | ⟨e, herr⟩
      · rcases hsd : shutdown st with ⟨r, st2, effs⟩
        cases r <;> simp [timeout_task_body, hc, hempty, hsd]
      · rcases hq : call.queue with _ | ⟨t, rest⟩
        · rcases hsd : shutdown st with ⟨r, st2, effs⟩
          cases r <;> simp [timeout_task_body, hc, hq, hsd]
        · subst herr
          rcases hsd : shutdown st with ⟨r, st2, effs⟩
          cases r <;> simp [timeout_task_body, hc, hq, hsd]
    rw [hbody]
    exact hsh2
  · intro s hinfo hne
    subst hinfo
    rcases hq : call.queue with _ | ⟨t, rest⟩
    · exact absurd hq hne
    · simp [timeout_task_body, hc, hq]

/-- A connected session with an empty queue at countdown expiry. -/
def emptyQueueConnectedState : AudioPlayer :=
  { call_handle_lock := some { queue := [], connected := true },
    idle_callback_action := TrackEndAction.TIMEOUT,
    timeout_handle := none }

/-- Witness for the amended C1: an empty queue at expiry leads to the
leave action. -/
theorem c1_timeout_expiry_shutdown_conditions_witness :
    Effect.leftCall
      ∈ (timeout_task_body emptyQueueConnectedState (Except.ok PlayMode.Play)).2.2 :=
  (c1_timeout_expiry_shutdown_conditions emptyQueueConnectedState
      { queue := [], connected := true } (Except.ok PlayMode.Play) rfl rfl).1 (Or.inl rfl)

/-- A player with no live call session. -/
def noSessionState : AudioPlayer :=
  { call_handle_lock := none, idle_callback_action := TrackEndAction.TIMEOUT,
    timeout_handle := none }

/-- C2 counterexample: `pause` with no call session does not return any
distinct no-active-session error — the `lock_call!` macro `unwrap()`s the
absent handle, which crashes (panics) instead. -/
theorem c2_counterexample_no_session_panics :
    (pause_locking noSessionState).1 = Outcome.panic
  ∧ (pause_locking noSessionState).1 ≠ Outcome.err ("NoActiveSession") := by decide

/-- C2 (amended): every queue/playback operation (pause, resume, skip,
stop, clear, list, rm, goto) invoked when no call session exists panics on
the `unwrap()` of the absent call handle instead of returning an error
value. -/
theorem c2_no_session_behavior (st : AudioPlayer) (h : st.call_handle_lock = none) :
    (pause_locking st).1 = Outcome.panic
  ∧ (resume_locking st).1 = Outcome.panic
  ∧ (skip_locking st).1 = Outcome.panic
  ∧ (stop_locking st).1 = Outcome.panic
  ∧ (clear_queue_locking st).1 = Outcome.panic
  ∧ (print_queue st).1 = Outcome.panic
  ∧ (process_rm st [Token.generic ("1")]).1 = Outcome.panic
  ∧ (process_goto st [Token.generic ("1")]).1 = Outcome.panic := by
  have h1 : parse_indices [Token.generic ("1")] = Except.ok [1] := by decide
  have h2 : parse_u32 ("1") = some 1 := by decide
  refine ⟨?_, ?_, ?_, ?_, ?_, ?_, ?_, ?_⟩ <;>
    simp [pause_locking, resume_locking, skip_locking, stop_locking, clear_queue_locking,
      print_queue, process_rm, process_goto, lock_call, h, h1, h2]

/-- Witness for the amended C2 at the session-less state. -/
theorem c2_no_session_behavior_witness :
    noSessionState.call_handle_lock = none
  ∧ (pause_locking noSessionState).1 = Outcome.panic :=
  ⟨rfl, (c2_no_session_behavior noSessionState rfl).1⟩

/-- C3: with an active session, `play_only_track` (the engine behind
`play`) pushes the track; when the resulting queue length exceeds 1 it
pauses playback, cancels any pending idle timer (aborting its handle),
moves the new track from the tail to the head — so the new track ends at
position 0 with the old position-0 track pushed back — and resumes; when
the resulting length is 1 it simply resumes. -/
theorem c3_enqueue_play_jumps_queue (st : AudioPlayer) (call : Call) (track : Track)
    (hc : st.call_handle_lock = some call) :
    (call.queue ≠ [] →
        play_only_track st track
          = (Outcome.ok (),
             { st with call_handle_lock := some { call with queue := track :: call.queue },
                       timeout_handle := none },
             Effect.pausedQueue
               :: ((match st.timeout_handle with
                    | some h => [Effect.abortedTimeout h]
                    | none => []) ++ [Effect.resumedQueue])))
  ∧ (call.queue = [] →
        play_only_track st track
          = (Outcome.ok (),
             { st with call_handle_lock := some { call with queue := [track] } },
             [Effect.resumedQueue])) := by
  constructor
  · intro hne
    rcases hq : call.queue with _ | ⟨t, rest⟩
    · exact absurd hq hne
    · have hlen : 1 < ((t :: rest) ++ [track]).length := by
        simp only [List.length_append, List.length_cons, List.length_nil]
        omega
      have hlast : (t :: (rest ++ [track])).getLast? = some track := by
        rw [← List.cons_append, List.getLast?_concat]
      have hdrop : (t :: (rest ++ [track])).dropLast = t :: rest := by
        rw [← List.cons_append, List.dropLast_concat]
      rcases hth : st.timeout_handle with _ | h <;>
        simp [play_only_track, cancel_timeout, hc, hq, hth, hlen, hlast, hdrop]
  · intro hq
    simp [play_only_track, hc, hq]

/-- A one-track session with a pending idle timer, about to receive a
`play`. -/
def playJumpState : AudioPlayer :=
  { call_handle_lock := some { queue := [{ uuid := 1 }], connected := true },
    idle_callback_action := TrackEndAction.TIMEOUT,
    timeout_handle := some 5 }

/-- Witness for C3 on a one-track queue with a pending timer. -/
theorem c3_enqueue_play_jumps_queue_witness :
    playJumpState.call_handle_lock = some { queue := [{ uuid := 1 }], connected := true }
  ∧ play_only_track playJumpState { uuid := 2 }
      = (Outcome.ok (),
         { playJumpState with
             call_handle_lock := some { queue := [{ uuid := 2 }, { uuid := 1 }], connected := true },
             timeout_handle := none },
         [Effect.pausedQueue, Effect.abortedTimeout 5, Effect.resumedQueue]) := by
  refine ⟨rfl, ?_⟩
  have h := (c3_enqueue_play_jumps_queue playJumpState
      { queue := [{ uuid := 1 }], connected := true } { uuid := 2 } rfl).1 (by decide)
  simpa using h

/-- C4: `goto k` on a queue of length `n` with `1 <= k <= n - 1` stops the
current track, pops-and-stops exactly `k` tracks from the head, then
resumes; `goto 0`, `goto k` with `k > n - 1`, and `goto` on an empty queue
are all rejected with an error. -/
theorem c4_goto_pops_and_stops (st : AudioPlayer) (call : Call) (s : String) (idx : Nat)
    (hc : st.call_handle_lock = some call) (hs : parse_u32 s = some idx) :
    (1 ≤ idx → idx ≤ call.queue.length - 1 → call.queue ≠ [] →
        process_goto st [Token.generic s]
          = (Outcome.ok (),
             { st with
                 call_handle_lock := some { call with queue := call.queue.drop idx } },
             (match call.queue.head? with
              | some t => [Effect.stoppedTrack t.uuid]
              | none => [])
               ++ (call.queue.take idx).map (fun t => Effect.stoppedTrack t.uuid)
               ++ [Effect.resumedQueue]))
  ∧ (idx = 0 →
        (process_goto st [Token.generic s]).1 = Outcome.err ("Tried to go to less than 1"))
  ∧ (1 ≤ idx → call.queue = [] →
        (process_goto st [Token.generic s]).1 = Outcome.err ("Empty playlist"))
  ∧ (1 ≤ idx → call.queue ≠ [] → call.queue.length - 1 < idx →
        (process_goto st [Token.generic s]).1 = Outcome.err ("Index is invalid")) := by
  refine ⟨?_, ?_, ?_, ?_⟩
  · intro h1 h2 h3
    have hlt : ¬ idx < 1 := by omega
    have hlen0 : ¬ call.queue.length = 0 := by
      simpa [List.length_eq_zero] using h3
    have hgt : ¬ (call.queue.length - 1 < idx) := by omega
    simp [process_goto, hs, hlt, hlen0, hgt, hc]
  · intro h0
    subst h0
    simp [process_goto, hs]
  · intro h1 hq
    have hlt : ¬ idx < 1 := by omega
    simp [process_goto, hs, hlt, hc, hq]
  · intro h1 h3 hgt
    have hlt : ¬ idx < 1 := by omega
    have hlen0 : ¬ call.queue.length = 0 := by
      simpa [List.length_eq_zero] using h3
    simp [process_goto, hs, hlt, hlen0, hgt, hc]

/-- A three-track session used to exercise `goto`. -/
def gotoState : AudioPlayer :=
  { call_handle_lock :=
      some { queue := [{ uuid := 1 }, { uuid := 2 }, { uuid := 3 }], connected := true },
    idle_callback_action := TrackEndAction.TIMEOUT,
    timeout_handle := none }

/-- Witness for C4: `goto 1` on a three-track queue stops the current
track, pops-and-stops one track from the head, and resumes. -/
theorem c4_goto_pops_and_stops_witness :
    parse_u32 ("1") = some 1
  ∧ process_goto gotoState [Token.generic ("1")]
      = (Outcome.ok (),
         { gotoState with
             call_handle_lock := some { queue := [{ uuid := 2 }, { uuid := 3 }], connected := true } },
         [Effect.stoppedTrack 1, Effect.stoppedTrack 1, Effect.resumedQueue]) := by
  refine ⟨by decide, ?_⟩
  have h := (c4_goto_pops_and_stops gotoState
      { queue := [{ uuid := 1 }, { uuid := 2 }, { uuid := 3 }], connected := true }
      ("1") 1 rfl (by decide)).1 (by decide) (by decide) (by decide)
  simpa using h

/-- C5: `process_rm` rejects any index set containing `0` or an index
above `len - 1`, and errors on an empty queue; in every such case the
validation happens before any mutation, so the player state (in particular
the queue) is unchanged and no track is touched. -/
theorem c5_rm_validates_before_mutation (st : AudioPlayer) (call : Call)
    (args : List Token) (inds : List Nat)
    (hc : st.call_handle_lock = some call)
    (hp : parse_indices args = Except.ok inds)
    (hbad : call.queue.length = 0 ∨ ∃ i ∈ inds, i < 1 ∨ call.queue.length - 1 < i) :
    (∃ e, (process_rm st args).1 = Outcome.err e)
  ∧ (process_rm st args).2.1 = st
  ∧ (process_rm st args).2.2 = [] := by
  by_cases hlen : call.queue.length = 0
  · refine ⟨⟨"Empty playlist", ?_⟩, ?_, ?_⟩ <;> simp [process_rm, hp, hc, hlen]
  · rcases hbad with hbad | ⟨i, hi, hbadi⟩
    · exact absurd hbad hlen
    · have hfind : (inds.find? (fun j =>
          decide (call.queue.length - 1 < j) || decide (j = 0))).isSome := by
        rw [List.find?_isSome]
        refine ⟨i, hi, ?_⟩
        rcases hbadi with hb | hb
        · have hzero : i = 0 := by omega
          simp [hzero]
        · simp [hb]
      rcases Option.isSome_iff_exists.mp hfind with ⟨j, hj⟩
      refine ⟨⟨"Index is invalid", ?_⟩, ?_, ?_⟩ <;> simp [process_rm, hp, hc, hlen, hj]

/-- A two-track session used to exercise `rm`. -/
def rmState : AudioPlayer :=
  { call_handle_lock := some { queue := [{ uuid := 1 }, { uuid := 2 }], connected := true },
    idle_callback_action := TrackEndAction.TIMEOUT,
    timeout_handle := none }

/-- Witness for C5: `rm 0` targets the protected current track, is
rejected, and leaves the state unchanged. -/
theorem c5_rm_validates_before_mutation_witness :
    parse_indices [Token.generic ("0")] = Except.ok [0]
  ∧ (process_rm rmState [Token.generic ("0")]).2.1 = rmState
  ∧ (∃ e, (process_rm rmState [Token.generic ("0")]).1 = Outcome.err e) := by
  have h := c5_rm_validates_before_mutation rmState
      { queue := [{ uuid := 1 }, { uuid := 2 }], connected := true }
      [Token.generic ("0")] [0] rfl (by decide)
      (Or.inr ⟨0, by decide, Or.inl (by decide)⟩)
  exact ⟨by decide, h.2.1, h.1⟩

/-- C9: when the track-end handler schedules a new TIMEOUT countdown, the
stored handle afterwards is exactly the fresh one (at most one countdown is
outstanding); if a countdown was already outstanding its handle is aborted
before the new task is spawned; and replaying the performed effects against
the live-timer semantics leaves exactly the fresh countdown live — a stale
countdown is no longer live and therefore can never fire after the newer
one was scheduled. -/
theorem c9_countdown_abort_before_spawn (st : AudioPlayer) (fresh : Nat) :
    (track_end_timeout_branch st fresh).1.timeout_handle = some fresh
  ∧ (∀ h, st.timeout_handle = some h →
        (track_end_timeout_branch st fresh).2
          = [Effect.abortedTimeout h, Effect.spawnedTimeout fresh])
  ∧ liveTimers (optTimers st.timeout_handle) (track_end_timeout_branch st fresh).2
      = [fresh] := by
  refine ⟨rfl, ?_, ?_⟩
  · intro h hh
    simp [track_end_timeout_branch, hh]
  · rcases hth : st.timeout_handle with _ | h <;>
      simp [track_end_timeout_branch, hth, liveTimers, optTimers]

/-- A state with an outstanding countdown handle `5`. -/
def countdownState : AudioPlayer :=
  { call_handle_lock := none,
    idle_callback_action := TrackEndAction.TIMEOUT,
    timeout_handle := some 5 }

/-- Witness for C9: scheduling countdown `7` aborts the outstanding
countdown `5` first, leaving only `7` live. -/
theorem c9_countdown_abort_before_spawn_witness :
    countdownState.timeout_handle = some 5
  ∧ (track_end_timeout_branch countdownState 7).2
      = [Effect.abortedTimeout 5, Effect.spawnedTimeout 7]
  ∧ liveTimers (optTimers countdownState.timeout_handle)
      (track_end_timeout_branch countdownState 7).2 = [7] :=
  ⟨rfl, (c9_countdown_abort_before_spawn countdownState 7).2.1 5 rfl,
   (c9_countdown_abort_before_spawn countdownState 7).2.2⟩

/-- C10: a successful `driveby <url>` (with an active session and a
successfully resolved track) ends with the queue holding exactly the one
driveby track at position 0 — everything queued before is dropped, because
the queue is cleared right after the driveby track starts playing. -/
theorem c10_driveby_clears_queue (st : AudioPlayer) (call : Call) (url : String) (track : Track)
    (hc : st.call_handle_lock = some call) :
    (process_driveby st [Token.generic url] (Except.ok track)).1 = Outcome.ok ()
  ∧ queueOf (process_driveby st [Token.generic url] (Except.ok track)).2.1 = [track] := by
  rcases hq : call.queue with _ | ⟨t, rest⟩
  · rcases hth : st.timeout_handle with _ | h <;>
      simp [process_driveby, cancel_timeout, play_only_track, clear_queue_locking, lock_call,
        queueOf, hc, hq, hth]
  · have hlen : 1 < ((t :: rest) ++ [track]).length := by
      simp only [List.length_append, List.length_cons, List.length_nil]
      omega
    have hlast : (t :: (rest ++ [track])).getLast? = some track := by
      rw [← List.cons_append, List.getLast?_concat]
    have hdrop : (t :: (rest ++ [track])).dropLast = t :: rest := by
      rw [← List.cons_append, List.dropLast_concat]
    rcases hth : st.timeout_handle with _ | h <;>
      simp [process_driveby, cancel_timeout, play_only_track, clear_queue_locking, lock_call,
        queueOf, hc, hq, hth, hlen, hlast, hdrop]

/-- A two-track session with a pending timer, about to be hit by a
`driveby`. -/
def drivebyState : AudioPlayer :=
  { call_handle_lock := some { queue := [{ uuid := 1 }, { uuid := 2 }], connected := true },
    idle_callback_action := TrackEndAction.TIMEOUT,
    timeout_handle := some 5 }

/-- Witness for C10: after the driveby, only the driveby track remains. -/
theorem c10_driveby_clears_queue_witness :
    drivebyState.call_handle_lock
      = some { queue := [{ uuid := 1 }, { uuid := 2 }], connected := true }
  ∧ (process_driveby drivebyState [Token.generic ("https://y")]
        (Except.ok { uuid := 9 })).1 = Outcome.ok ()
  ∧ queueOf (process_driveby drivebyState [Token.generic ("https://y")]
        (Except.ok { uuid := 9 })).2.1 = [{ uuid := 9 }] := by
  have h := c10_driveby_clears_queue drivebyState
      { queue := [{ uuid := 1 }, { uuid := 2 }], connected := true }
      ("https://y") { uuid := 9 } rfl
  exact ⟨rfl, h.1, h.2⟩
